import Mathlib

/-!
# A2A Registry Client Core — formal model

A shallow embedding of the Registry Client Core of the A2A Registry
repository, translated from the TypeScript SDK
(`sdk/typescript/src/client.ts`, `sdk/typescript/src/models.ts`,
`sdk/typescript/src/exceptions.ts`), with a small fragment of the Go SDK
(`sdk/go/pkg/a2areg/client.go`) where a claim compares the two bindings.

The TypeScript code is dynamically typed: payloads are plain JavaScript
objects and the code branches on JavaScript truthiness.  We therefore embed
values as a `Js` inductive (JavaScript `undefined` and `null` are collapsed
into `Js.null`; property access on a non-object yields `Js.null` where the
source guarantees an object).  Numbers are modelled as integers (the code
only manipulates whole seconds and status codes).
-/

/-- A JavaScript/JSON value.  `null` stands for both `undefined` and
`null`; `num` carries an integer (fractional numbers do not occur in the
modelled paths). -/
inductive Js where
  | null : Js
  | bool : Bool → Js
  | num : Int → Js
  | str : String → Js
  | arr : List Js → Js
  | obj : List (String × Js) → Js

/-- JavaScript truthiness: `undefined`/`null`, `false`, `0` and `""` are
falsy; every array and object is truthy. -/
def Js.truthy : Js → Bool
  | .null => false
  | .bool b => b
  | .num n => !(n == 0)
  | .str s => !(s == "")
  | .arr _ => true
  | .obj _ => true

/-- String conversion as performed by JavaScript template interpolation
(`${v}`).  Arrays display as their comma-joined elements, objects as
`[object Object]`. -/
def Js.display : Js → String
  | .null => "undefined"
  | .bool b => cond b "true" "false"
  | .num n => toString n
  | .str s => s
  | .arr l => String.intercalate "," (l.attach.map (fun x => Js.display x.1))
  | .obj _ => "[object Object]"
decreasing_by
  have h := List.sizeOf_lt_of_mem x.2
  simp only [Js.arr.sizeOf_spec]
  omega

/-- Lookup in an association list modelling a JavaScript object
(first binding for the key; `setKey` keeps keys unique). -/
def lookupKey : List (String × Js) → String → Option Js
  | [], _ => none
  | (k, v) :: rest, key => if k = key then some v else lookupKey rest key

/-- Property read `o[k]`: `undefined` for a missing key or a non-object.
(JavaScript would throw on `null`; the modelled code only reads properties
of values it knows are objects.) -/
def Js.get : Js → String → Js
  | .obj l, k => (lookupKey l k).getD .null
  | _, _ => .null

/-- The JavaScript `k in o` test. -/
def Js.hasKey : Js → String → Bool
  | .obj l, k => l.any (fun p => p.1 == k)
  | _, _ => false

/-- Property write `o[k] = v` on an object: updates the existing binding in
place (JavaScript objects keep the original insertion position of an
updated key) or appends a new one. -/
def setKey : List (String × Js) → String → Js → List (String × Js)
  | [], k, v => [(k, v)]
  | (k0, v0) :: rest, k, v =>
    if k0 = k then (k0, v) :: rest else (k0, v0) :: setKey rest k v

/-- JavaScript `a || b`. -/
def jsOr (a b : Js) : Js := if a.truthy then a else b

/-- JavaScript `a !== undefined ? a : b`. -/
def jsIfUndefined (a b : Js) : Js :=
  match a with
  | .null => b
  | v => v

/-!
## Error taxonomy (`sdk/typescript/src/exceptions.ts`)

The TypeScript SDK defines exactly four error classes: the base `A2AError`
and three subclasses `AuthenticationError`, `ValidationError`,
`NotFoundError`.  (There is no `RateLimitError` and no `ServerError` in the
TypeScript taxonomy.)  Each carries a message; the optional `details`
payload is never populated in the modelled paths and is omitted.
-/

/-- The TypeScript error taxonomy: `a2a` is the base `A2AError`, the other
constructors are its three subclasses. -/
inductive A2AErr where
  | a2a (msg : String)
  | authentication (msg : String)
  | validation (msg : String)
  | notFound (msg : String)

/-!
## Response classification (`client.ts`, `handleResponse`)
-/

/-- An HTTP response as observed by `handleResponse`: status code, status
text, and `some body` when the response has a JSON content type and its
body parses (`none` covers both a non-JSON content type and a parse
failure, which the source ignores). -/
structure HttpResponse where
  status : Nat
  statusText : String
  jsonBody : Option Js

/-- The `errorMessage` computed by `handleResponse`: starts as
`HTTP <status>: <statusText>` and is replaced by the JSON body's `detail`
field when that is present and truthy (`errorData.detail || errorMessage`). -/
def respErrorMessage (r : HttpResponse) : String :=
  let base := "HTTP " ++ toString r.status ++ ": " ++ r.statusText
  match r.jsonBody with
  | some b => if (b.get "detail").truthy then (b.get "detail").display else base
  | none => base

/-- `A2ARegClient.handleResponse` (client.ts lines 173–210): a 2xx status
returns the decoded JSON body (or `null`); 401/403 raise
`AuthenticationError`, 404 `NotFoundError`, 422 `ValidationError`, and every
other status falls through to the base `A2AError`. -/
def handleResponse (r : HttpResponse) : Except A2AErr Js :=
  if 200 ≤ r.status ∧ r.status < 300 then
    .ok (match r.jsonBody with | some b => b | none => .null)
  else if r.status = 401 then
    .error (.authentication "Authentication required or token expired")
  else if r.status = 403 then
    .error (.authentication "Access denied")
  else if r.status = 404 then
    .error (.notFound "Resource not found")
  else if r.status = 422 then
    .error (.validation ("Validation error: " ++ respErrorMessage r))
  else
    .error (.a2a ("API error: " ++ respErrorMessage r))

/-!
## Wire-dictionary decoders (`sdk/typescript/src/models.ts`)
-/

/-- `capabilitiesFromDict` (models.ts lines 127–134). -/
def capabilitiesFromDict (data : Js) : Js :=
  .obj [("streaming", data.get "streaming"),
        ("pushNotifications", data.get "pushNotifications"),
        ("stateTransitionHistory", data.get "stateTransitionHistory"),
        ("supportsAuthenticatedExtendedCard", data.get "supportsAuthenticatedExtendedCard")]

/-- `securitySchemeFromDict` (models.ts lines 136–146). -/
def securitySchemeFromDict (data : Js) : Js :=
  .obj [("type", data.get "type"),
        ("location", data.get "location"),
        ("name", data.get "name"),
        ("flow", data.get "flow"),
        ("tokenUrl", jsOr (data.get "tokenUrl") (data.get "token_url")),
        ("scopes", data.get "scopes"),
        ("credentials", data.get "credentials")]

/-- `agentSkillFromDict` (models.ts lines 148–158). -/
def agentSkillFromDict (data : Js) : Js :=
  .obj [("id", data.get "id"),
        ("name", data.get "name"),
        ("description", data.get "description"),
        ("tags", jsOr (data.get "tags") (.arr [])),
        ("examples", data.get "examples"),
        ("inputModes", jsOr (data.get "inputModes") (data.get "input_modes")),
        ("outputModes", jsOr (data.get "outputModes") (data.get "output_modes"))]

/-- `agentProviderFromDict` (models.ts lines 183–188). -/
def agentProviderFromDict (data : Js) : Js :=
  .obj [("organization", data.get "organization"), ("url", data.get "url")]

/-- `teeDetailsFromDict` (models.ts lines 190–196). -/
def teeDetailsFromDict (data : Js) : Js :=
  .obj [("enabled", jsOr (data.get "enabled") (.bool false)),
        ("provider", data.get "provider"),
        ("attestation", data.get "attestation")]

/-- `agentCardSignatureFromDict` (models.ts lines 198–204). -/
def agentCardSignatureFromDict (data : Js) : Js :=
  .obj [("algorithm", data.get "algorithm"),
        ("signature", data.get "signature"),
        ("jwksUrl", jsOr (data.get "jwksUrl") (data.get "jwks_url"))]

/-- Helper for `(x || y || []).map f`: the source maps over the first truthy
of the candidate arrays, defaulting to the empty array.  (A truthy
non-array would make JavaScript throw; the modelled paths only ever pass
arrays or falsy values.) -/
def mapJsArray (v : Js) (f : Js → Js) : Js :=
  match v with
  | .arr l => .arr (l.map f)
  | _ => .arr []

/-- `agentCardSpecFromDict` (models.ts lines 160–181). -/
def agentCardSpecFromDict (data : Js) : Js :=
  .obj [("name", data.get "name"),
        ("description", data.get "description"),
        ("url", data.get "url"),
        ("version", data.get "version"),
        ("capabilities", capabilitiesFromDict (jsOr (data.get "capabilities") (.obj []))),
        ("securitySchemes",
          mapJsArray (jsOr (data.get "securitySchemes") (jsOr (data.get "security_schemes") (.arr [])))
            securitySchemeFromDict),
        ("skills", mapJsArray (jsOr (data.get "skills") (.arr [])) agentSkillFromDict),
        ("interface",
          .obj [("preferredTransport", (data.get "interface").get "preferredTransport"),
                ("defaultInputModes", (data.get "interface").get "defaultInputModes"),
                ("defaultOutputModes", (data.get "interface").get "defaultOutputModes"),
                ("additionalInterfaces", (data.get "interface").get "additionalInterfaces")]),
        ("provider",
          if (data.get "provider").truthy then agentProviderFromDict (data.get "provider") else .null),
        ("documentationUrl", jsOr (data.get "documentationUrl") (data.get "documentation_url")),
        ("signature",
          if (data.get "signature").truthy then agentCardSignatureFromDict (data.get "signature")
          else .null)]

/-- `agentFromDict` (models.ts lines 100–125).  Optional wire fields are
defaulted: `provider` falls back to `publisherId` then `"unknown"`, `tags`
and `auth_schemes` to `[]`, `is_public`/`is_active` to `true`. -/
def agentFromDict (data : Js) : Js :=
  .obj [("id", jsOr (data.get "id") (data.get "agentId")),
        ("name", data.get "name"),
        ("description", data.get "description"),
        ("version", data.get "version"),
        ("provider", jsOr (data.get "provider") (jsOr (data.get "publisherId") (.str "unknown"))),
        ("tags", jsOr (data.get "tags") (.arr [])),
        ("is_public", jsIfUndefined (data.get "is_public") (.bool true)),
        ("is_active", jsIfUndefined (data.get "is_active") (.bool true)),
        ("location_url", data.get "location_url"),
        ("location_type", data.get "location_type"),
        ("capabilities",
          if (data.get "capabilities").truthy then capabilitiesFromDict (data.get "capabilities")
          else .null),
        ("auth_schemes", mapJsArray (data.get "auth_schemes") securitySchemeFromDict),
        ("tee_details",
          if (data.get "tee_details").truthy then teeDetailsFromDict (data.get "tee_details")
          else .null),
        ("skills",
          if (data.get "skills").truthy then mapJsArray (data.get "skills") agentSkillFromDict
          else .null),
        ("agent_card",
          if (data.get "agent_card").truthy then agentCardSpecFromDict (data.get "agent_card")
          else .null),
        ("client_id", data.get "client_id"),
        ("created_at", data.get "created_at"),
        ("updated_at", data.get "updated_at")]

/-!
## Card converter (`client.ts`, `convertToCardSpec`, lines 212–289)

`convertToCardSpec` receives a plain object (the modelled inputs have no
`to_dict` method, so the source's `'to_dict' in agent` branch is the
identity).
-/

/-- The capabilities block of the card: all-false defaults overridden by
truthy fields of `agent.capabilities` (`capabilities.streaming || false`,
etc.). -/
def cardCapabilities (agent : Js) : Js :=
  let cap := jsOr (agent.get "capabilities") (.obj [])
  .obj [("streaming", jsOr (cap.get "streaming") (.bool false)),
        ("pushNotifications", jsOr (cap.get "pushNotifications") (.bool false)),
        ("stateTransitionHistory", jsOr (cap.get "stateTransitionHistory") (.bool false)),
        ("supportsAuthenticatedExtendedCard",
          jsOr (cap.get "supportsAuthenticatedExtendedCard") (.bool false))]

/-- One entry of the `securitySchemes` map:
`{type: scheme.type || 'apiKey', location: 'header',
  name: scheme.name || 'Authorization'}`. -/
def schemeEntry (s : Js) : Js :=
  .obj [("type", jsOr (s.get "type") (.str "apiKey")),
        ("location", .str "header"),
        ("name", jsOr (s.get "name") (.str "Authorization"))]

/-- The property key under which a scheme is stored:
`securitySchemes[schemeType]` where `schemeType = scheme.type || 'apiKey'`
(a JavaScript property key is the stringified value). -/
def typeKey (s : Js) : String := (jsOr (s.get "type") (.str "apiKey")).display

/-- The `securitySchemes` loop of `convertToCardSpec`: successive property
writes into an initially empty object, so a later scheme with the same
type overwrites an earlier one. -/
def buildSecuritySchemes (schemes : List Js) : List (String × Js) :=
  schemes.foldl (fun m s => setKey m (typeKey s) (schemeEntry s)) []

/-- `agentDict.auth_schemes || []` as iterated by the `for … of` loop. -/
def authSchemesList (agent : Js) : List Js :=
  match agent.get "auth_schemes" with
  | .arr l => l
  | _ => []

/-- The synthetic skill built when `agent.skills` is a non-array object
with an `examples` field. -/
def mainSkillFromExamples (agent skillsObj : Js) : Js :=
  .obj [("id", .str "main_skill"),
        ("name", .str "Main Skill"),
        ("description", jsOr (agent.get "description") (.str "Agent skill")),
        ("tags", jsOr (agent.get "tags") (.arr [])),
        ("examples", skillsObj.get "examples"),
        ("inputModes", .arr [.str "text/plain"]),
        ("outputModes", .arr [.str "text/plain"])]

/-- The skills block: an array is passed through verbatim; a non-array
object with truthy `examples` becomes one synthetic `main_skill`; anything
else yields no skills. -/
def cardSkills (agent : Js) : List Js :=
  match agent.get "skills" with
  | .arr l => l
  | .obj l =>
    if ((Js.obj l).get "examples").truthy then [mainSkillFromExamples agent (.obj l)] else []
  | _ => []

/-- The `interface` block: fixed transport defaults, plus one
`additionalInterfaces` entry when `location_url` is truthy. -/
def cardInterface (agent : Js) : Js :=
  let base := [("preferredTransport", Js.str "jsonrpc"),
               ("defaultInputModes", Js.arr [.str "text/plain"]),
               ("defaultOutputModes", Js.arr [.str "text/plain"])]
  if (agent.get "location_url").truthy then
    .obj (base ++
      [("additionalInterfaces",
        Js.arr [.obj [("transport", .str "http"), ("url", agent.get "location_url")]])])
  else .obj base

/-- `A2ARegClient.convertToCardSpec` (client.ts lines 212–289). -/
def convertToCardSpec (agent : Js) : Js :=
  let interf := cardInterface agent
  let base := [("name", jsOr (agent.get "name") (.str "Unnamed Agent")),
               ("description", jsOr (agent.get "description") (.str "Agent description")),
               ("url", jsOr (agent.get "location_url") (.str "https://example.com")),
               ("version", jsOr (agent.get "version") (.str "1.0.0")),
               ("capabilities", cardCapabilities agent),
               ("securitySchemes", Js.obj (buildSecuritySchemes (authSchemesList agent))),
               ("skills", Js.arr (cardSkills agent)),
               ("interface", interf),
               ("defaultInputModes", interf.get "defaultInputModes"),
               ("defaultOutputModes", interf.get "defaultOutputModes")]
  if (agent.get "provider").truthy then
    .obj (base ++
      [("provider",
        Js.obj [("organization", agent.get "provider"),
                ("url", jsOr (agent.get "location_url") (.str "https://example.com"))])])
  else .obj base

/-!
## Validator (`client.ts`, `validateAgent`, lines 353–397)
-/

/-- The five known auth-scheme types; `validTypes.includes(scheme.type)`
compares with strict equality, so only a string can match. -/
def isValidSchemeType (v : Js) : Bool :=
  match v with
  | .str t => ["apiKey", "oauth2", "jwt", "mTLS", "bearer"].contains t
  | _ => false

/-- The messages pushed by the `auth_schemes.forEach` loop, in loop order:
for each indexed scheme, a missing-`type` message and then an
invalid-`type` message. -/
def schemeErrorList (l : List Js) : List String :=
  (l.enum.map (fun p =>
    (if (p.2.get "type").truthy then []
     else ["Auth scheme " ++ toString p.1 ++ " missing required field: type"]) ++
    (if (p.2.get "type").truthy && !isValidSchemeType (p.2.get "type") then
       ["Auth scheme " ++ toString p.1 ++ " has invalid type: " ++ (p.2.get "type").display]
     else []))).flatten

/-- `A2ARegClient.validateAgent` (client.ts lines 353–397): sequential
pushes into `errors`, mirrored here as sequential appends.  A dictionary
without a `name` key is first normalised through `agentFromDict`. -/
def validateAgent (agent : Js) : List String :=
  let agentObj := if agent.hasKey "name" then agent else agentFromDict agent
  let errors : List String := []
  let errors := if (agentObj.get "name").truthy then errors
                else errors ++ ["Agent name is required"]
  let errors := if (agentObj.get "description").truthy then errors
                else errors ++ ["Agent description is required"]
  let errors := if (agentObj.get "version").truthy then errors
                else errors ++ ["Agent version is required"]
  let errors := if (agentObj.get "provider").truthy then errors
                else errors ++ ["Agent provider is required"]
  let errors := if (agentObj.get "auth_schemes").truthy then
                  errors ++ (match agentObj.get "auth_schemes" with
                             | .arr l => schemeErrorList l
                             | _ => [])
                else errors
  let errors := if (agentObj.get "agent_card").truthy then
                  let card := agentObj.get "agent_card"
                  let errors := if (card.get "name").truthy then errors
                                else errors ++ ["Agent card name is required"]
                  let errors := if (card.get "description").truthy then errors
                                else errors ++ ["Agent card description is required"]
                  if (card.get "version").truthy then errors
                  else errors ++ ["Agent card version is required"]
                else errors
  errors

/-!
## Authentication manager (`client.ts`, `authenticate` /
`ensureAuthenticated`, lines 59–117)

Mutable client fields become an explicit state record; wall-clock time
(`Date.now() / 1000`) is an integer parameter `now`; the token endpoint's
answer is a parameter, and the list of issued token requests (one entry per
HTTP POST to `/auth/oauth/token`, carrying the requested scope) is returned
as a trace.
-/

/-- The authentication-relevant fields of `A2ARegClient`. -/
structure ClientState where
  clientId : Option String := none
  clientSecret : Option String := none
  accessToken : Option String := none
  tokenExpiresAt : Option Int := none
  apiKey : Option String := none
  scope : String := "read write"

/-- Truthiness of a `string | undefined` field (the empty string is falsy). -/
def strTruthy : Option String → Bool
  | some s => !(s == "")
  | none => false

/-- The expiry test of `ensureAuthenticated`:
`this.tokenExpiresAt && Date.now() / 1000 >= this.tokenExpiresAt`
(a recorded expiry of exactly `0` is falsy and counts as unset). -/
def tokenExpired (st : ClientState) (now : Int) : Bool :=
  match st.tokenExpiresAt with
  | some t => !(t == 0) && decide (t ≤ now)
  | none => false

/-- The token endpoint's HTTP answer: `ok` is `response.ok`, `body` the
decoded JSON. -/
structure TokenHttpResp where
  ok : Bool
  statusText : String
  body : Js

/-- `this.accessToken = tokenData.access_token` (the modelled responses
carry the token as a string or omit it). -/
def respAccessToken (body : Js) : Option String :=
  match body.get "access_token" with
  | .str s => some s
  | _ => none

/-- `const expiresIn = tokenData.expires_in || 3600`: an absent or zero
`expires_in` is replaced by the 3600-second default.  (A truthy
non-numeric value is outside the model.) -/
def respExpiresIn (body : Js) : Int :=
  match body.get "expires_in" with
  | .num n => if n = 0 then 3600 else n
  | _ => 3600

/-- The part of `authenticate` that runs once the token response arrives
(client.ts lines 86–97): non-2xx fails; otherwise the token and
`tokenExpiresAt = now + expiresIn - 60` are stored *before* the
missing-token check, so the state is updated even on that error path. -/
def applyTokenResponse (st : ClientState) (now : Int) (resp : TokenHttpResp) :
    ClientState × Option A2AErr :=
  if !resp.ok then
    (st, some (.authentication ("Authentication failed: " ++ resp.statusText)))
  else
    let st1 := { st with
      accessToken := respAccessToken resp.body,
      tokenExpiresAt := some (now + respExpiresIn resp.body - 60) }
    if !strTruthy st1.accessToken then
      (st1, some (.authentication "No access token received"))
    else (st1, none)

/-- `A2ARegClient.authenticate` (client.ts lines 59–104): returns the new
state, the trace of issued token requests (each recorded by its scope) and
the error, if any. -/
def authenticate (st : ClientState) (now : Int) (resp : TokenHttpResp)
    (scopeArg : Option String) : ClientState × List String × Option A2AErr :=
  if strTruthy st.apiKey then (st, [], none)
  else if !strTruthy st.clientId || !strTruthy st.clientSecret then
    (st, [], some (.authentication "Client ID and secret are required for authentication"))
  else
    let authScope := match scopeArg with
      | some s => if s ≠ "" then s else st.scope
      | none => st.scope
    let p := applyTokenResponse st now resp
    (p.1, [authScope], p.2)

/-- `A2ARegClient.ensureAuthenticated` (client.ts lines 106–117). -/
def ensureAuthenticated (st : ClientState) (now : Int) (resp : TokenHttpResp) :
    ClientState × List String × Option A2AErr :=
  if strTruthy st.apiKey then (st, [], none)
  else if !strTruthy st.accessToken then authenticate st now resp (some st.scope)
  else if tokenExpired st now then authenticate st now resp (some st.scope)
  else (st, [], none)

/-- The expiry update of the Go client's `Authenticate`
(`sdk/go/pkg/a2areg/client.go` lines 137–140): only a positive
`expires_in` sets `tokenExpiresAt`; an absent field decodes to `0` and
leaves the previous value (initially `nil`) in place. -/
def goTokenExpiry (prev : Option Int) (now e : Int) : Option Int :=
  if 0 < e then some (now + (e - 60)) else prev

/-!
## Registry client façade (`client.ts`, lines 291–536)

The request pipeline below `handleResponse` (URL assembly, headers,
timeout) is summarised by a server oracle mapping method, endpoint and
body to the classified result that `request` would return.
-/

/-- A server oracle: method, endpoint, JSON body (or `null`) to the
classified outcome of `request`. -/
def ServerFn : Type := String → String → Js → Except A2AErr Js

/-- `A2ARegClient.getAgent` (client.ts lines 309–312). -/
def getAgent (server : ServerFn) (agentId : String) : Except A2AErr Js :=
  match server "GET" ("/agents/" ++ agentId) .null with
  | .ok d => .ok (agentFromDict d)
  | .error e => .error e

/-- The body POSTed to `/agents/publish`:
`{public: is_public !== undefined ? is_public : true, card: convertToCardSpec(agent)}`. -/
def publishRequestBody (agent : Js) : Js :=
  .obj [("public", jsIfUndefined (agent.get "is_public") (.bool true)),
        ("card", convertToCardSpec agent)]

/-- `A2ARegClient.publishAgent` (client.ts lines 402–433): optional
validation, conversion, POST `/agents/publish`, and — when the ack carries
a truthy `agentId` — an immediate `getAgent` follow-up. -/
def publishAgent (server : ServerFn) (agentData : Js) (validate : Bool) :
    Except A2AErr Js :=
  let agent := if agentData.hasKey "name" then agentData else agentFromDict agentData
  if validate && !(validateAgent agent).isEmpty then
    .error (.validation
      ("Agent validation failed: " ++ String.intercalate "; " (validateAgent agent)))
  else
    match server "POST" "/agents/publish" (publishRequestBody agent) with
    | .error e => .error e
    | .ok published =>
      if (published.get "agentId").truthy then
        getAgent server (published.get "agentId").display
      else .ok (agentFromDict published)

/-- `A2ARegClient.validateApiKey` (client.ts lines 498–513).  The `catch`
block returns `null` for an `AuthenticationError` and then returns `null`
for every other error as well, so no error ever escapes. -/
def validateApiKey (server : ServerFn) (apiKey : String) (requiredScopes : Js) :
    Except A2AErr (Option Js) :=
  match server "POST" "/security/api-keys/validate"
      (.obj [("api_key", .str apiKey), ("required_scopes", requiredScopes)]) with
  | .ok v => .ok (some v)
  | .error e =>
    match e with
    | .authentication _ => .ok none
    | _ => .ok none

/-- `A2ARegClient.revokeApiKey` (client.ts lines 518–528).  The `catch`
block returns `false` for a `NotFoundError` and then returns `false` for
every other error as well. -/
def revokeApiKey (server : ServerFn) (keyId : String) : Except A2AErr Bool :=
  match server "DELETE" ("/security/api-keys/" ++ keyId) .null with
  | .ok _ => .ok true
  | .error e =>
    match e with
    | .notFound _ => .ok false
    | _ => .ok false

/-!
## Interleaving model of concurrent `ensureAuthenticated` calls

`ensureAuthenticated` is `async` and holds no lock.  Under the JavaScript
event loop a call runs synchronously from its entry through the checks of
`ensureAuthenticated` and the prelude of `authenticate` up to `await
fetch(...)` — at which point the token POST has been issued — and resumes
only when the response arrives, at which point the token fields are
written.  Each task below therefore has two atomic steps: `ready → 
awaiting` (perform the checks; issue the token request when they demand
one) and `awaiting → finished` (receive the response and write the shared
state, via the same `applyTokenResponse` as `authenticate`).  The Go
client's `ensureAuthenticated` (client.go lines 146–160) has the same
check-then-refresh shape with no mutex.
-/

/-- The synchronous prefix of one `ensureAuthenticated` call: `true` iff it
reaches `await fetch` in `authenticate`, i.e. iff it issues a token
request (with credentials missing it errors before any HTTP). -/
def reachesTokenFetch (st : ClientState) (now : Int) : Bool :=
  if strTruthy st.apiKey then false
  else if strTruthy st.accessToken && !tokenExpired st now then false
  else if !strTruthy st.clientId || !strTruthy st.clientSecret then false
  else true

/-- Two concurrent callers of `ensureAuthenticated` sharing one client:
program counters (`0` ready, `1` awaiting the token response, `2`
finished), the shared state, and instrumentation counting issued token
requests and simultaneously in-flight ones. -/
structure AuthSys where
  shared : ClientState
  pc1 : Nat
  pc2 : Nat
  requests : Nat
  inflight : Nat
  maxInflight : Nat

/-- Advance one task (`first` selects which) by one atomic step. -/
def stepTask (resp : TokenHttpResp) (now : Int) (sys : AuthSys) (first : Bool) : AuthSys :=
  let pc := if first then sys.pc1 else sys.pc2
  if pc = 0 then
    if reachesTokenFetch sys.shared now then
      let inf := sys.inflight + 1
      { sys with requests := sys.requests + 1, inflight := inf,
                 maxInflight := max sys.maxInflight inf,
                 pc1 := if first then 1 else sys.pc1,
                 pc2 := if first then sys.pc2 else 1 }
    else
      { sys with pc1 := if first then 2 else sys.pc1,
                 pc2 := if first then sys.pc2 else 2 }
  else if pc = 1 then
    { sys with shared := (applyTokenResponse sys.shared now resp).1,
               inflight := sys.inflight - 1,
               pc1 := if first then 2 else sys.pc1,
               pc2 := if first then sys.pc2 else 2 }
  else sys

/-- Run a schedule (each entry picks the task to step). -/
def runSched (resp : TokenHttpResp) (now : Int) (sched : List Bool) (sys : AuthSys) : AuthSys :=
  sched.foldl (stepTask resp now) sys

/-- Both tasks at their entry point, nothing issued yet. -/
def initSys (st : ClientState) : AuthSys :=
  { shared := st, pc1 := 0, pc2 := 0, requests := 0, inflight := 0, maxInflight := 0 }

/-!
## Specification-side helpers for theorem statements
-/

/-- The last scheme of a list whose `typeKey` is `k` — the entry that the
specification's last-write-wins policy says must survive in the map. -/
def lastSchemeWith (k : String) : List Js → Option Js
  | [] => none
  | s :: rest =>
    match lastSchemeWith k rest with
    | some r => some r
    | none => if typeKey s = k then some s else none

/-- The value `validateAgent` actually inspects: the input itself when it
has a `name` key, its `agentFromDict` normalisation otherwise. -/
def validationTarget (agent : Js) : Js :=
  if agent.hasKey "name" then agent else agentFromDict agent

/-- Specification reading of the validator's first block: the four
required-field violations, in order. -/
def fieldViolations (agentObj : Js) : List String :=
  (if (agentObj.get "name").truthy then [] else ["Agent name is required"]) ++
  (if (agentObj.get "description").truthy then [] else ["Agent description is required"]) ++
  (if (agentObj.get "version").truthy then [] else ["Agent version is required"]) ++
  (if (agentObj.get "provider").truthy then [] else ["Agent provider is required"])

/-- Specification reading of the validator's auth-scheme block. -/
def schemeViolations (agentObj : Js) : List String :=
  if (agentObj.get "auth_schemes").truthy then
    match agentObj.get "auth_schemes" with
    | .arr l => schemeErrorList l
    | _ => []
  else []

/-- Specification reading of the validator's nested agent-card block. -/
def cardViolations (agentObj : Js) : List String :=
  if (agentObj.get "agent_card").truthy then
    (if ((agentObj.get "agent_card").get "name").truthy then []
     else ["Agent card name is required"]) ++
    (if ((agentObj.get "agent_card").get "description").truthy then []
     else ["Agent card description is required"]) ++
    (if ((agentObj.get "agent_card").get "version").truthy then []
     else ["Agent card version is required"])
  else []

/-!
## Concrete inputs used by witnesses and counterexamples
-/

/-- A 429 response with no JSON body. -/
def r429 : HttpResponse := ⟨429, "Too Many Requests", none⟩

/-- A 500 response with no JSON body. -/
def r500c : HttpResponse := ⟨500, "Internal Server Error", none⟩

/-- The agent of the spec's publish example. -/
def publishAgentInput : Js :=
  .obj [("name", .str "New Agent"), ("description", .str "d"),
        ("version", .str "1.0.0"), ("provider", .str "p")]

/-- The hydrated agent the mock server returns for `GET /agents/agent-123`. -/
def dAgent123 : Js :=
  .obj [("id", .str "agent-123"), ("name", .str "New Agent"),
        ("description", .str "d"), ("version", .str "1.0.0"), ("provider", .str "p")]

/-- A mock server replying `{agentId:"agent-123"}` to the publish POST and
with `dAgent123` to the follow-up GET. -/
def mockPublishServer : ServerFn := fun method path _body =>
  if method = "POST" ∧ path = "/agents/publish" then
    .ok (.obj [("agentId", .str "agent-123")])
  else if method = "GET" ∧ path = "/agents/agent-123" then
    .ok dAgent123
  else .error (.notFound "Resource not found")

/-- A server whose every request fails with 401 (as classified). -/
def server401 : ServerFn := fun _ _ _ =>
  .error (.authentication "Authentication required or token expired")

/-- A server whose every request fails with a 422 `ValidationError`. -/
def serverValidationFail : ServerFn := fun _ _ _ =>
  .error (.validation "Validation error: boom")

/-- An OAuth-configured client with no cached token. -/
def stOAuth : ClientState := { clientId := some "cid", clientSecret := some "sec" }

/-- An OAuth client with a cached token valid until time 1000. -/
def stCached : ClientState :=
  { clientId := some "cid", clientSecret := some "sec",
    accessToken := some "tok", tokenExpiresAt := some 1000 }

/-- An OAuth client whose cached token expired at time 100. -/
def stExpired : ClientState :=
  { clientId := some "cid", clientSecret := some "sec",
    accessToken := some "old", tokenExpiresAt := some 100 }

/-- A successful token response that carries no `expires_in`. -/
def respNoExpiry : TokenHttpResp := ⟨true, "OK", .obj [("access_token", .str "tok")]⟩

/-- A successful token response: fresh token, `expires_in` 3600. -/
def respFresh : TokenHttpResp :=
  ⟨true, "OK", .obj [("access_token", .str "new"), ("expires_in", .num 3600)]⟩

/-- The spec's validator example `{name:"", description:"d",
version:"1.0.0", provider:"p"}`. -/
def vexEmptyName : Js :=
  .obj [("name", .str ""), ("description", .str "d"),
        ("version", .str "1.0.0"), ("provider", .str "p")]

/-- A fully populated valid agent. -/
def vexValid : Js :=
  .obj [("name", .str "My Agent"), ("description", .str "d"),
        ("version", .str "1.0.0"), ("provider", .str "p"),
        ("auth_schemes", .arr [.obj [("type", .str "oauth2")]]),
        ("agent_card",
          .obj [("name", .str "My Agent"), ("description", .str "d"),
                ("version", .str "1.0.0")])]

/-- An agent violating field, scheme and card checks at once. -/
def vexMulti : Js :=
  .obj [("name", .str ""), ("description", .str ""),
        ("version", .str "1.0.0"), ("provider", .str "p"),
        ("auth_schemes", .arr [.obj [], .obj [("type", .str "basic")]]),
        ("agent_card", .obj [("name", .str "")])]

/-- Two auth schemes sharing the type `apiKey` (the second must win). -/
def schemesDup : List Js :=
  [.obj [("type", .str "apiKey"), ("name", .str "X-Key-1")],
   .obj [("type", .str "apiKey")]]

/-- An agent carrying `schemesDup`. -/
def agSchemesDup : Js := .obj [("auth_schemes", .arr schemesDup)]

/-- A well-formed agent with no `skills` key (round-trip counterexample). -/
def cexAgentNoSkills : Js :=
  .obj [("name", .str "n"), ("description", .str "d"), ("version", .str "v")]

/-- A skill already in normalised wire form (`agentSkillFromDict` fixes it). -/
def rtSkill : Js :=
  .obj [("id", .str "s1"), ("name", .str "Skill"), ("description", .str "sd"),
        ("tags", .arr [.str "t"]), ("examples", .null),
        ("inputModes", .null), ("outputModes", .null)]

/-- A well-formed agent with one normalised skill (round-trip witness). -/
def rtAgent : Js :=
  .obj [("name", .str "n"), ("description", .str "d"), ("version", .str "1.0.0"),
        ("provider", .str "p"), ("skills", .arr [rtSkill])]

/-!
## Helper lemmas
-/

theorem jsOr_of_truthy {a : Js} (h : a.truthy = true) (b : Js) : jsOr a b = a := by
  simp [jsOr, h]

theorem jsOr_of_falsy {a : Js} (h : a.truthy = false) (b : Js) : jsOr a b = b := by
  simp [jsOr, h]

theorem truthy_str_of_ne {s : String} (h : s ≠ "") : (Js.str s).truthy = true := by
  simp [Js.truthy, h]

theorem get_obj (l : List (String × Js)) (k : String) :
    (Js.obj l).get k = (lookupKey l k).getD .null := rfl

theorem lookupKey_setKey (m : List (String × Js)) (key k : String) (v : Js) :
    lookupKey (setKey m key v) k = if key = k then some v else lookupKey m k := by
  induction m with
  | nil =>
    by_cases h : key = k <;> simp [setKey, lookupKey, h]
  | cons p rest ih =>
    by_cases h0 : p.1 = key
    · by_cases h : key = k <;> simp [setKey, lookupKey, h0, h]
    · by_cases h : p.1 = k
      · have hne : ¬ key = k := fun hk => h0 (h.trans hk.symm)
        have hne2 : ¬ k = key := fun he => h0 (h.trans he)
        simp [setKey, lookupKey, h0, h, hne, hne2]
      · simp [setKey, lookupKey, h0, h, ih]

theorem lookupKey_buildAux (schemes : List Js) (m : List (String × Js)) (k : String) :
    lookupKey (schemes.foldl (fun m s => setKey m (typeKey s) (schemeEntry s)) m) k =
      (match lastSchemeWith k schemes with
       | some s => some (schemeEntry s)
       | none => lookupKey m k) := by
  induction schemes generalizing m with
  | nil => rfl
  | cons s rest ih =>
    simp only [List.foldl_cons, lastSchemeWith]
    rw [ih]
    cases h : lastSchemeWith k rest with
    | some r => simp
    | none =>
      simp only [lookupKey_setKey]
      by_cases hk : typeKey s = k <;> simp [hk]

/-!
## Claims
-/

/-- C1 (counterexample).  The claim says a 429 response raises
`RateLimitError` and a 5xx response raises `ServerError`.  The TypeScript
taxonomy (`exceptions.ts`) has no such classes — `A2AErr` lists its four
constructors exhaustively — and `handleResponse` maps 429 and 500 to the
base `A2AError`, as the SDK's own test ("should throw A2AError on generic
errors", status 500) also expects. -/
theorem handleResponse_429_500_base_cex :
    handleResponse r429 = .error (.a2a "API error: HTTP 429: Too Many Requests") ∧
    handleResponse r500c = .error (.a2a "API error: HTTP 500: Internal Server Error") := by
  exact ⟨rfl, rfl⟩

/-- C1 (amended).  For every non-2xx response, `handleResponse` classifies
purely by status code: 401 and 403 give `AuthenticationError`, 404 gives
`NotFoundError`, 422 gives `ValidationError`, and every other status —
including 429 and all 5xx — gives the base `A2AError` whose message
carries the raw status and status text, or the server's `detail` string
when one is present (the detail replaces the status text). -/
theorem handleResponse_taxonomy (r : HttpResponse)
    (h2xx : ¬(200 ≤ r.status ∧ r.status < 300)) :
    (r.status = 401 →
      handleResponse r = .error (.authentication "Authentication required or token expired")) ∧
    (r.status = 403 → handleResponse r = .error (.authentication "Access denied")) ∧
    (r.status = 404 → handleResponse r = .error (.notFound "Resource not found")) ∧
    (r.status = 422 →
      handleResponse r = .error (.validation ("Validation error: " ++ respErrorMessage r))) ∧
    (r.status ≠ 401 → r.status ≠ 403 → r.status ≠ 404 → r.status ≠ 422 →
      handleResponse r = .error (.a2a ("API error: " ++ respErrorMessage r))) := by
  refine ⟨fun h => ?_, fun h => ?_, fun h => ?_, fun h => ?_, fun h1 h2 h3 h4 => ?_⟩ <;>
    simp [handleResponse, h2xx, *]

/-- C1 (witness): the amended classification applied to a concrete 500
response. -/
theorem handleResponse_taxonomy_witness :
    ¬(200 ≤ r500c.status ∧ r500c.status < 300) ∧
    handleResponse r500c = .error (.a2a ("API error: " ++ respErrorMessage r500c)) :=
  ⟨by decide,
   (handleResponse_taxonomy r500c (by decide)).2.2.2.2 (by decide) (by decide)
     (by decide) (by decide)⟩

/-- C2.  `publishAgent(agent, false)` POSTs `{public, card}` to
`/agents/publish`; whenever the ack carries a (truthy) `agentId`, it
immediately GETs `/agents/{agentId}` and returns that hydrated agent. -/
theorem publishAgent_two_step (server : ServerFn) (agent resp d : Js) (aid : String)
    (hname : agent.hasKey "name" = true)
    (hpost : server "POST" "/agents/publish" (publishRequestBody agent) = .ok resp)
    (haid : resp.get "agentId" = .str aid) (hne : aid ≠ "")
    (hget : server "GET" ("/agents/" ++ aid) .null = .ok d) :
    publishAgent server agent false = .ok (agentFromDict d) := by
  simp [publishAgent, hname, hpost, haid, truthy_str_of_ne hne, Js.display, getAgent, hget]

/-- C2 (witness): against a server replying `{agentId:"agent-123"}` on
publish and the hydrated record on `GET /agents/agent-123`, `publishAgent`
returns an agent whose `id` is `"agent-123"`. -/
theorem publishAgent_two_step_witness :
    publishAgent mockPublishServer publishAgentInput false = .ok (agentFromDict dAgent123) ∧
    (agentFromDict dAgent123).get "id" = .str "agent-123" :=
  ⟨publishAgent_two_step mockPublishServer publishAgentInput
      (.obj [("agentId", .str "agent-123")]) dAgent123 "agent-123" rfl rfl rfl
      (by decide) rfl,
   rfl⟩

/-- C3.  For a client with OAuth credentials configured,
`ensureAuthenticated` issues a token request exactly when no API key is
set and the cached token is missing or expired; with an API key set it
returns immediately with no HTTP call; and with a valid cached token it
returns the state unchanged with no HTTP call (the expiry test is the
code's own: a recorded expiry, nonzero, that `now` has reached). -/
theorem ensureAuthenticated_cache_policy (st : ClientState) (now : Int) (resp : TokenHttpResp)
    (hcid : strTruthy st.clientId = true) (hsec : strTruthy st.clientSecret = true) :
    ((ensureAuthenticated st now resp).2.1 ≠ [] ↔
      (strTruthy st.apiKey = false ∧
        (strTruthy st.accessToken = false ∨ tokenExpired st now = true))) ∧
    (strTruthy st.apiKey = true → ensureAuthenticated st now resp = (st, [], none)) ∧
    (strTruthy st.apiKey = false → strTruthy st.accessToken = true →
      tokenExpired st now = false → ensureAuthenticated st now resp = (st, [], none)) := by
  refine ⟨?_, fun h => by simp [ensureAuthenticated, h], fun h1 h2 h3 => by
    simp [ensureAuthenticated, h1, h2, h3]⟩
  cases hapi : strTruthy st.apiKey with
  | false =>
    cases htok : strTruthy st.accessToken with
    | false => simp [ensureAuthenticated, authenticate, hapi, htok, hcid, hsec]
    | true =>
      cases hexp : tokenExpired st now with
      | false => simp [ensureAuthenticated, hapi, htok, hexp]
      | true => simp [ensureAuthenticated, authenticate, hapi, htok, hexp, hcid, hsec]
  | true => simp [ensureAuthenticated, hapi]

/-- C3 (witness): an OAuth client with a token cached until time 1000,
asked again at time 500, reuses the cached token — identical state, no
token request, no error. -/
theorem ensureAuthenticated_cache_policy_witness :
    strTruthy stCached.clientId = true ∧ strTruthy stCached.clientSecret = true ∧
    ensureAuthenticated stCached 500 respFresh = (stCached, [], none) :=
  ⟨by decide, by decide,
   (ensureAuthenticated_cache_policy stCached 500 respFresh (by decide) (by decide)).2.2
     (by decide) (by decide) (by decide)⟩

/-- C4 (counterexample).  The claim says an absent `expires_in` makes the
token non-expiring.  In the TypeScript client the default
`tokenData.expires_in || 3600` applies, so authenticating at time 1000
with a response that has no `expires_in` records the expiry
`1000 + 3600 - 60 = 4540` — the previously unset `tokenExpiresAt` becomes
set, the token is not treated as non-expiring. -/
theorem authenticate_absent_expiresIn_cex :
    stOAuth.tokenExpiresAt = none ∧
    (authenticate stOAuth 1000 respNoExpiry none).1.tokenExpiresAt = some 4540 :=
  ⟨rfl, rfl⟩

/-- C4 (amended).  On a successful token response `authenticate` stores the
`access_token` (its absence is an `AuthenticationError`) and sets
`tokenExpiresAt = now + expires_in − 60`; when `expires_in` is absent the
TypeScript client defaults it to 3600 seconds (expiry `now + 3540`),
whereas the Go client's `Authenticate` leaves `tokenExpiresAt` unchanged
(non-expiring for a fresh client). -/
theorem authenticate_expiry_spec (st : ClientState) (now : Int) (resp : TokenHttpResp)
    (hapi : strTruthy st.apiKey = false) (hcid : strTruthy st.clientId = true)
    (hsec : strTruthy st.clientSecret = true) (hok : resp.ok = true) :
    (∀ tok e, tok ≠ "" → resp.body.get "access_token" = .str tok →
      resp.body.get "expires_in" = .num e → e ≠ 0 →
      authenticate st now resp none =
        ({ st with accessToken := some tok, tokenExpiresAt := some (now + e - 60) },
         [st.scope], none)) ∧
    (∀ tok, tok ≠ "" → resp.body.get "access_token" = .str tok →
      resp.body.get "expires_in" = .null →
      authenticate st now resp none =
        ({ st with accessToken := some tok, tokenExpiresAt := some (now + 3600 - 60) },
         [st.scope], none)) ∧
    (resp.body.get "access_token" = .null →
      (authenticate st now resp none).2.2 =
        some (.authentication "No access token received")) ∧
    goTokenExpiry st.tokenExpiresAt now 0 = st.tokenExpiresAt ∧
    (∀ e : Int, 0 < e → goTokenExpiry st.tokenExpiresAt now e = some (now + (e - 60))) := by
  refine ⟨fun tok e htok hacc hexp he0 => ?_, fun tok htok hacc hexp => ?_,
    fun hacc => ?_, ?_, fun e he => ?_⟩
  · have hst : strTruthy (some tok) = true := by simp [strTruthy, htok]
    simp [authenticate, applyTokenResponse, respAccessToken, respExpiresIn,
      hapi, hcid, hsec, hok, hacc, hexp, he0, hst]
  · have hst : strTruthy (some tok) = true := by simp [strTruthy, htok]
    simp [authenticate, applyTokenResponse, respAccessToken, respExpiresIn,
      hapi, hcid, hsec, hok, hacc, hexp, hst]
  · have hst : strTruthy (none : Option String) = false := rfl
    simp [authenticate, applyTokenResponse, respAccessToken,
      hapi, hcid, hsec, hok, hacc, hst]
  · simp [goTokenExpiry]
  · simp [goTokenExpiry, he]

/-- C4 (witness): the amended statement applied to a concrete response
carrying `expires_in = 3600`. -/
theorem authenticate_expiry_spec_witness :
    authenticate stOAuth 1000 respFresh none =
      ({ stOAuth with accessToken := some "new", tokenExpiresAt := some (1000 + 3600 - 60) },
       [stOAuth.scope], none) :=
  (authenticate_expiry_spec stOAuth 1000 respFresh rfl rfl rfl rfl).1 "new" 3600
    (by decide) rfl rfl (by decide)

/-- C5.  For an agent whose auth schemes all carry a (non-empty string)
`type`, the card's `securitySchemes` is an object keyed by `scheme.type`,
each entry being `{type, location: "header", name: scheme.name ||
"Authorization"}` (see `schemeEntry`), and a key maps to the entry of the
*last* scheme with that type — last-write-wins. -/
theorem securitySchemes_keyed (agent : Js) (schemes : List Js)
    (hs : agent.get "auth_schemes" = .arr schemes)
    (htyped : ∀ s ∈ schemes, ∃ t, t ≠ "" ∧ s.get "type" = .str t) :
    ∃ m, (convertToCardSpec agent).get "securitySchemes" = .obj m ∧
      (∀ k, lookupKey m k = (lastSchemeWith k schemes).map schemeEntry) ∧
      (∀ s ∈ schemes, typeKey s = (s.get "type").display) := by
  have hal : authSchemesList agent = schemes := by simp [authSchemesList, hs]
  refine ⟨buildSecuritySchemes (authSchemesList agent), ?_, ?_, ?_⟩
  · by_cases hp : (agent.get "provider").truthy <;>
      simp [convertToCardSpec, hp, get_obj, lookupKey]
  · intro k
    rw [hal]
    simp only [buildSecuritySchemes, lookupKey_buildAux]
    cases lastSchemeWith k schemes <;> simp [lookupKey]
  · intro s hsm
    obtain ⟨t, ht, hts⟩ := htyped s hsm
    simp [typeKey, hts, jsOr_of_truthy (truthy_str_of_ne ht), Js.display]

/-- C5 (witness): two schemes both of type `apiKey`; the map holds one
entry for key `apiKey`, and it is the second scheme's entry. -/
theorem securitySchemes_keyed_witness :
    ∃ m, (convertToCardSpec agSchemesDup).get "securitySchemes" = .obj m ∧
      (∀ k, lookupKey m k = (lastSchemeWith k schemesDup).map schemeEntry) ∧
      (∀ s ∈ schemesDup, typeKey s = (s.get "type").display) :=
  securitySchemes_keyed agSchemesDup schemesDup rfl (by
    intro s hsm
    simp only [schemesDup, List.mem_cons, List.mem_singleton, List.not_mem_nil, or_false] at hsm
    rcases hsm with h | h <;> subst h <;> exact ⟨"apiKey", by decide, rfl⟩)


set_option maxHeartbeats 1600000 in
/-- C6.  `validateAgent` returns the ordered concatenation of all
violations — required fields first, then the indexed auth-scheme checks,
then the nested agent-card checks — rather than stopping at the first; the
spec's empty-name example yields exactly `["Agent name is required"]`, a
fully populated valid agent yields `[]`, and a multiply invalid agent
yields every violation in checking order. -/
theorem validateAgent_spec :
    validateAgent vexEmptyName = ["Agent name is required"] ∧
    validateAgent vexValid = [] ∧
    validateAgent vexMulti =
      ["Agent name is required", "Agent description is required",
       "Auth scheme 0 missing required field: type",
       "Auth scheme 1 has invalid type: basic",
       "Agent card name is required", "Agent card description is required",
       "Agent card version is required"] ∧
    (∀ agent : Js, validateAgent agent =
      fieldViolations (validationTarget agent) ++ schemeViolations (validationTarget agent) ++
        cardViolations (validationTarget agent)) := by
  refine ⟨rfl, rfl, ?_, fun agent => ?_⟩
  · simp [validateAgent, vexMulti, schemeErrorList, isValidSchemeType, Js.display,
      Js.get, Js.hasKey, Js.truthy, lookupKey, jsOr, List.enum]
    decide
  · generalize hT : validationTarget agent = T
    simp only [validationTarget] at hT
    simp only [validateAgent, fieldViolations, schemeViolations, cardViolations, hT]
    by_cases h1 : (T.get "name").truthy <;>
    by_cases h2 : (T.get "description").truthy <;>
    by_cases h3 : (T.get "version").truthy <;>
    by_cases h4 : (T.get "provider").truthy <;>
    by_cases h5 : (T.get "auth_schemes").truthy <;>
    by_cases h6 : (T.get "agent_card").truthy <;>
    by_cases h7 : ((T.get "agent_card").get "name").truthy <;>
    by_cases h8 : ((T.get "agent_card").get "description").truthy <;>
    by_cases h9 : ((T.get "agent_card").get "version").truthy <;>
    simp [h1, h2, h3, h4, h5, h6, h7, h8, h9]

/-- C7 (counterexample).  The claim's well-formedness premise is only
"non-empty name, description, version".  For such an agent with *no*
`skills`, the round trip does not leave skills unchanged: the card always
carries a `skills` array, so `agentFromDict` turns the absent field into
the (truthy) empty list. -/
theorem roundTrip_skills_cex :
    cexAgentNoSkills.get "skills" = .null ∧
    (agentFromDict (convertToCardSpec cexAgentNoSkills)).get "skills" = .arr [] :=
  ⟨rfl, rfl⟩

/-- C7 (amended).  For an agent with non-empty `name`, `description` and
`version` whose `skills` are *present* as a list of skills already in
normalised wire form (fixed by `agentSkillFromDict`), converting to a card
with `convertToCardSpec` and hydrating back with `agentFromDict` preserves
`name`, `description`, `version` and `skills` exactly; when `skills` is
absent the round trip yields the empty list instead. -/
theorem roundTrip_preserves (agent : Js) (nm ds vr : String) (sk : List Js)
    (hn : agent.get "name" = .str nm) (hn0 : nm ≠ "")
    (hd : agent.get "description" = .str ds) (hd0 : ds ≠ "")
    (hv : agent.get "version" = .str vr) (hv0 : vr ≠ "")
    (hs : agent.get "skills" = .arr sk)
    (hnorm : ∀ s ∈ sk, agentSkillFromDict s = s) :
    (agentFromDict (convertToCardSpec agent)).get "name" = .str nm ∧
    (agentFromDict (convertToCardSpec agent)).get "description" = .str ds ∧
    (agentFromDict (convertToCardSpec agent)).get "version" = .str vr ∧
    (agentFromDict (convertToCardSpec agent)).get "skills" = .arr sk := by
  have hcn : (convertToCardSpec agent).get "name" = .str nm := by
    by_cases hp : (agent.get "provider").truthy <;>
      simp [convertToCardSpec, hp, get_obj, lookupKey, hn,
        jsOr_of_truthy (truthy_str_of_ne hn0)]
  have hcd : (convertToCardSpec agent).get "description" = .str ds := by
    by_cases hp : (agent.get "provider").truthy <;>
      simp [convertToCardSpec, hp, get_obj, lookupKey, hd,
        jsOr_of_truthy (truthy_str_of_ne hd0)]
  have hcv : (convertToCardSpec agent).get "version" = .str vr := by
    by_cases hp : (agent.get "provider").truthy <;>
      simp [convertToCardSpec, hp, get_obj, lookupKey, hv,
        jsOr_of_truthy (truthy_str_of_ne hv0)]
  have hcs : (convertToCardSpec agent).get "skills" = .arr sk := by
    by_cases hp : (agent.get "provider").truthy <;>
      simp [convertToCardSpec, hp, get_obj, lookupKey, cardSkills, hs]
  have hmap : sk.map agentSkillFromDict = sk := by
    calc sk.map agentSkillFromDict = sk.map id := List.map_congr_left hnorm
    _ = sk := List.map_id sk
  refine ⟨?_, ?_, ?_, ?_⟩ <;>
    simp [agentFromDict, get_obj, lookupKey, hcn, hcd, hcv, hcs, Js.truthy, mapJsArray, hmap]

/-- C7 (witness): the amended round trip on a concrete agent with one
normalised skill. -/
theorem roundTrip_preserves_witness :
    (agentFromDict (convertToCardSpec rtAgent)).get "name" = .str "n" ∧
    (agentFromDict (convertToCardSpec rtAgent)).get "description" = .str "d" ∧
    (agentFromDict (convertToCardSpec rtAgent)).get "version" = .str "1.0.0" ∧
    (agentFromDict (convertToCardSpec rtAgent)).get "skills" = .arr [rtSkill] :=
  roundTrip_preserves rtAgent "n" "d" "1.0.0" [rtSkill] rfl (by decide) rfl (by decide)
    rfl (by decide) rfl (by intro s hs; simp at hs; subst hs; rfl)

/-- C8.  The claim (and the spec) say `validateApiKey`/`revokeApiKey`
downgrade exactly `AuthenticationError`/`NotFoundError` and let every
other error propagate.  The TypeScript code's `catch` blocks end in an
unconditional `return null` / `return false` (the preceding `instanceof`
test is dead), so a `ValidationError` — here produced by a server failing
every request with 422 — is also swallowed: `validateApiKey` returns
`null` and `revokeApiKey` returns `false` instead of rethrowing.  The Go
SDK's `ValidateAPIKey`/`RevokeAPIKey` do propagate such errors, so the
TypeScript `catch` is a slip against the documented design. -/
theorem apiKey_check_ops_swallow_all :
    validateApiKey server401 "k" .null = .ok none ∧
    validateApiKey serverValidationFail "k" .null = .ok none ∧
    revokeApiKey serverValidationFail "id" = .ok false ∧
    validateApiKey serverValidationFail "k" .null ≠
      .error (.validation "Validation error: boom") ∧
    revokeApiKey serverValidationFail "id" ≠
      .error (.validation "Validation error: boom") :=
  ⟨rfl, rfl, rfl, by simp [validateApiKey, serverValidationFail],
   by simp [revokeApiKey, serverValidationFail]⟩

/-- C9 (counterexample).  The claim says at most one `authenticate` token
request is ever in flight.  After token expiry (state `stExpired` at time
200), the schedule in which both concurrent callers run their
check-then-fetch prefix before either response arrives makes each of them
issue a token request: two requests, both simultaneously in flight. -/
theorem concurrent_refresh_cex :
    (runSched respFresh 200 [true, false] (initSys stExpired)).maxInflight = 2 ∧
    (runSched respFresh 200 [true, false] (initSys stExpired)).requests = 2 :=
  ⟨rfl, rfl⟩

/-- C9 (amended).  The check-then-refresh sequence of
`ensureAuthenticated` is not serialized — there is no mutex or
single-flight in either the TypeScript or the Go client — so after expiry
two overlapping callers each issue a refresh request (two in flight, two
total), both completing; only when one caller's refresh completes before
the other starts does the second caller reuse the fresh token with no
second request. -/
theorem unserialized_refresh :
    (runSched respFresh 200 [true, false, true, false] (initSys stExpired)).requests = 2 ∧
    (runSched respFresh 200 [true, false, true, false] (initSys stExpired)).maxInflight = 2 ∧
    (runSched respFresh 200 [true, false, true, false] (initSys stExpired)).pc1 = 2 ∧
    (runSched respFresh 200 [true, false, true, false] (initSys stExpired)).pc2 = 2 ∧
    (runSched respFresh 200 [true, false, true, false]
        (initSys stExpired)).shared.accessToken = some "new" ∧
    (runSched respFresh 200 [true, true, false] (initSys stExpired)).requests = 1 ∧
    (runSched respFresh 200 [true, true, false] (initSys stExpired)).maxInflight = 1 ∧
    (runSched respFresh 200 [true, true, false] (initSys stExpired)).pc2 = 2 ∧
    (runSched respFresh 200 [true, true, false]
        (initSys stExpired)).shared.accessToken = some "new" :=
  ⟨rfl, rfl, rfl, rfl, rfl, rfl, rfl, rfl, rfl⟩

/-- C10.  Every agent produced by `agentFromDict` has its optional wire
fields defaulted: `provider` becomes `"unknown"` when the response carries
neither a (truthy) `provider` nor `publisherId`, `tags` and `auth_schemes`
become empty lists when absent, and `is_public`/`is_active` default to
`true` when absent; and `getAgent` returns exactly `agentFromDict` of the
server's payload, so its results carry the same defaults. -/
theorem agentFromDict_defaults (data : Js) :
    ((data.get "provider").truthy = false → (data.get "publisherId").truthy = false →
      (agentFromDict data).get "provider" = .str "unknown") ∧
    (data.get "tags" = .null → (agentFromDict data).get "tags" = .arr []) ∧
    (data.get "auth_schemes" = .null → (agentFromDict data).get "auth_schemes" = .arr []) ∧
    (data.get "is_public" = .null → (agentFromDict data).get "is_public" = .bool true) ∧
    (data.get "is_active" = .null → (agentFromDict data).get "is_active" = .bool true) ∧
    (∀ (server : ServerFn) (aid : String) (d : Js),
      server "GET" ("/agents/" ++ aid) .null = .ok d →
      getAgent server aid = .ok (agentFromDict d)) := by
  refine ⟨fun h1 h2 => ?_, fun h => ?_, fun h => ?_, fun h => ?_, fun h => ?_,
    fun server aid d h => ?_⟩
  · simp [agentFromDict, get_obj, lookupKey, jsOr_of_falsy h1, jsOr_of_falsy h2]
  · simp [agentFromDict, get_obj, lookupKey, h, jsOr, Js.truthy]
  · simp [agentFromDict, get_obj, lookupKey, h, mapJsArray]
  · simp [agentFromDict, get_obj, lookupKey, h, jsIfUndefined]
  · simp [agentFromDict, get_obj, lookupKey, h, jsIfUndefined]
  · simp [getAgent, h]

/-- C10 (witness): the defaults on the empty wire object, and `getAgent`
against the mock server. -/
theorem agentFromDict_defaults_witness :
    (agentFromDict (.obj [])).get "provider" = .str "unknown" ∧
    (agentFromDict (.obj [])).get "tags" = .arr [] ∧
    (agentFromDict (.obj [])).get "auth_schemes" = .arr [] ∧
    (agentFromDict (.obj [])).get "is_public" = .bool true ∧
    (agentFromDict (.obj [])).get "is_active" = .bool true ∧
    getAgent mockPublishServer "agent-123" = .ok (agentFromDict dAgent123) :=
  ⟨(agentFromDict_defaults (.obj [])).1 rfl rfl,
   (agentFromDict_defaults (.obj [])).2.1 rfl,
   (agentFromDict_defaults (.obj [])).2.2.1 rfl,
   (agentFromDict_defaults (.obj [])).2.2.2.1 rfl,
   (agentFromDict_defaults (.obj [])).2.2.2.2.1 rfl,
   (agentFromDict_defaults (.obj [])).2.2.2.2.2 mockPublishServer "agent-123" dAgent123 rfl⟩
